import Mathlib

/-!
Shallow embedding of the vehicle-rental booking subsystem (src/app.py).

Dates are modelled as year/month/day triples; stored and session dates are
strings parsed with a model of Python's `datetime.strptime(s, "%Y-%m-%d")`
(restricted to ASCII digits).  The database state is the list of vehicles and
the list of bookings; each Flask route that the claims mention is embedded as
a pure function from the state (and the relevant session/form data) to an
outcome together with the successor state.
-/

/-- Calendar date, as produced by `datetime.strptime(s, "%Y-%m-%d").date()`. -/
structure Date where
  year : Nat
  month : Nat
  day : Nat
deriving Repr, DecidableEq

/-- Gregorian leap-year rule used by Python's `datetime`. -/
def isLeap (y : Nat) : Bool :=
  (y % 4 == 0 && y % 100 != 0) || y % 400 == 0

/-- Number of days in month `m` of year `y` (Python `calendar` table). -/
def daysInMonth (y m : Nat) : Nat :=
  match m with
  | 2 => if isLeap y then 29 else 28
  | 4 => 30
  | 6 => 30
  | 9 => 30
  | 11 => 30
  | _ => 31

/-- Days in the year `y`. -/
def daysInYear (y : Nat) : Nat := if isLeap y then 366 else 365

/-- Days of year `y` that precede month `m` (0 for January). -/
def daysBeforeMonth (y : Nat) : Nat → Nat
  | 0 => 0
  | 1 => 0
  | m + 2 => daysBeforeMonth y (m + 1) + daysInMonth y (m + 1)

/-- Days before January 1 of year `y`, counting from year 1 (proleptic
Gregorian, as in Python's `date.toordinal`). -/
def daysBeforeYear (y : Nat) : Nat :=
  365 * (y - 1) + (y - 1) / 4 - (y - 1) / 100 + (y - 1) / 400

/-- Python `date.toordinal`: day 1 is 0001-01-01. -/
def Date.toOrdinal (d : Date) : Nat :=
  daysBeforeYear d.year + daysBeforeMonth d.year d.month + d.day

/-- A genuine calendar date, in the range `datetime.date` accepts. -/
def Date.valid (d : Date) : Prop :=
  1 ≤ d.year ∧ d.year ≤ 9999 ∧ 1 ≤ d.month ∧ d.month ≤ 12 ∧
    1 ≤ d.day ∧ d.day ≤ daysInMonth d.year d.month

instance : DecidablePred Date.valid := fun d => by
  unfold Date.valid; infer_instance

/-- Python `date.__le__`: lexicographic on (year, month, day). -/
def Date.le (a b : Date) : Bool :=
  Nat.blt a.year b.year ||
    (a.year == b.year &&
      (Nat.blt a.month b.month || (a.month == b.month && Nat.ble a.day b.day)))

/-- Decimal value of an ASCII digit. -/
def digitVal (c : Char) : Option Nat :=
  if '0' ≤ c ∧ c ≤ '9' then some (c.toNat - 48) else none

/-- Value of a string of ASCII digits; `none` if any character is not a digit. -/
def natOfDigits (cs : List Char) : Option Nat :=
  cs.foldl
    (fun acc c =>
      match acc, digitVal c with
      | some n, some d => some (n * 10 + d)
      | _, _ => none)
    (some 0)

/-- Split a character list into the maximal groups separated by `'-'`. -/
def splitDash : List Char → List (List Char)
  | [] => [[]]
  | c :: cs =>
    if c = '-' then [] :: splitDash cs
    else
      match splitDash cs with
      | [] => [[c]]
      | g :: gs => (c :: g) :: gs

/-- Model of `datetime.strptime(s, "%Y-%m-%d")`: four digits of year, one or
two digits of month (1–12), one or two digits of day, the day bounded by the
month's length, year at least 1.  Returns `none` exactly when Python raises
`ValueError`. -/
def parseDate (s : String) : Option Date :=
  match splitDash s.toList with
  | [ys, ms, ds] =>
    if ys.length = 4 ∧ (ms.length = 1 ∨ ms.length = 2) ∧
        (ds.length = 1 ∨ ds.length = 2) then
      match natOfDigits ys, natOfDigits ms, natOfDigits ds with
      | some y, some m, some d =>
        if 1 ≤ y ∧ 1 ≤ m ∧ m ≤ 12 ∧ 1 ≤ d ∧ d ≤ daysInMonth y m then
          some ⟨y, m, d⟩
        else none
      | _, _, _ => none
    else none
  | _ => none

/-- Inclusive date range (spec §3 DateRange). -/
structure DateRange where
  start : Date
  endDate : Date
deriving Repr, DecidableEq

/-- Spec §4.1: `overlaps` — true iff `this.start <= other.end AND
this.end >= other.start`, both endpoints inclusive. -/
def DateRange.overlaps (a b : DateRange) : Bool :=
  Date.le a.start b.endDate && Date.le b.start a.endDate

/-- Row of the `Vehicle` table. -/
structure Vehicle where
  id : Nat
  vehicle_id : String
  type : String
  make : String
  model : String
  year : Nat
  color : String
  seating_capacity : Nat
  rent_per_day : Int
  availability : String
deriving Repr, DecidableEq

/-- Row of the `Booking` table; dates are stored as strings. -/
structure Booking where
  id : Nat
  user_id : Nat
  vehicle_id : Nat
  gov_id : String
  license : String
  start_point : String
  end_point : String
  start_date : String
  end_date : String
  status : String
  payment_status : String
  amount_paid : Option Int
deriving Repr, DecidableEq

/-- Database state: the vehicle and booking tables. -/
structure DB where
  vehicles : List Vehicle
  bookings : List Booking
deriving Repr, DecidableEq

/-- `Vehicle.query.get(pk)` — lookup by primary key. -/
def findVehicle (db : DB) (pk : Nat) : Option Vehicle :=
  db.vehicles.find? fun v => v.id == pk

/-- `Booking.query.get(pk)` — lookup by primary key. -/
def findBooking (db : DB) (pk : Nat) : Option Booking :=
  db.bookings.find? fun b => b.id == pk

/-- Fresh autoincrement primary key for an inserted booking. -/
def nextBookingId (db : DB) : Nat :=
  db.bookings.foldl (fun m b => max m b.id) 0 + 1

/-- The dashboard's unavailable-vehicle computation (src/app.py lines
195–206): over all non-Cancelled bookings, parse the stored dates (skipping
a booking whose dates fail to parse) and collect the vehicle ids whose range
overlaps the requested window. -/
def unavailable_vehicle_ids (bookings : List Booking) (req_start req_end : Date) :
    List Nat :=
  (bookings.filter fun b => b.status != "Cancelled").filterMap fun b =>
    match parseDate b.start_date, parseDate b.end_date with
    | some b_start, some b_end =>
      if Date.le b_start req_end && Date.le req_start b_end then
        some b.vehicle_id
      else none
    | _, _ => none

/-- The overlap scan of `book_vehicle` (src/app.py lines 392–402): any
non-Cancelled booking of this vehicle whose parsed range overlaps the
requested window (parse failures are skipped). -/
def vehicle_conflict (bookings : List Booking) (vehicleId : Nat)
    (req_start req_end : Date) : Bool :=
  (bookings.filter fun b => b.vehicle_id == vehicleId && b.status != "Cancelled").any
    fun b =>
      match parseDate b.start_date, parseDate b.end_date with
      | some b_start, some b_end => Date.le b_start req_end && Date.le req_start b_end
      | _, _ => false

/-- Outcome of the `/dashboard` route. -/
inductive DashOutcome where
  | selectDates
  | render (unavailable : List Nat)
deriving Repr, DecidableEq

/-- `/dashboard` (src/app.py lines 176–210): requires session rental dates,
parses them, and computes the unavailable vehicle ids. -/
def dashboard (db : DB) (rental_start rental_end : Option String) : DashOutcome :=
  match rental_start, rental_end with
  | some start, some stop =>
    if start = "" ∨ stop = "" then .selectDates
    else
      match parseDate start, parseDate stop with
      | some req_start, some req_end =>
        .render (unavailable_vehicle_ids db.bookings req_start req_end)
      | _, _ => .selectDates
  | _, _ => .selectDates

/-- The multi-step cart stored in `session['booking_info']`. -/
structure BookingInfo where
  vehicle_id : Nat
  gov_id : String
  license : String
  start_point : String
  end_point : String
  start_date : String
  end_date : String
deriving Repr, DecidableEq

/-- The booking form; `start_date`/`end_date` come from `request.form.get`
and may be absent. -/
structure BookForm where
  gov_id : String
  license : String
  start_point : String
  end_point : String
  start_date : Option String
  end_date : Option String
deriving Repr, DecidableEq

/-- Python `x or y` for an optional string: the string when present and
non-empty, otherwise the fallback. -/
def formOr (o : Option String) (fallback : String) : String :=
  match o with
  | some s => if s = "" then fallback else s
  | none => fallback

/-- Outcome of the `/book/<id>` route. -/
inductive BookOutcome where
  | notFound
  | selectDates
  | conflict
  | proceed (info : BookingInfo)
  | renderForm
deriving Repr, DecidableEq

/-- `/book/<vehicle_id>` (src/app.py lines 372–420): 404 on a missing
vehicle; redirect to date selection when session dates are missing, empty or
unparsable; reject when a non-Cancelled booking of this vehicle overlaps the
session window; on POST build `booking_info` from the form, falling back to
the session dates when the form date fields are falsy. -/
def book_vehicle (db : DB) (rental_start rental_end : Option String)
    (vehicleId : Nat) (isPost : Bool) (form : BookForm) : BookOutcome :=
  match findVehicle db vehicleId with
  | none => .notFound
  | some vehicle =>
    match rental_start, rental_end with
    | some start, some stop =>
      if start = "" ∨ stop = "" then .selectDates
      else
        match parseDate start, parseDate stop with
        | some req_start, some req_end =>
          if vehicle_conflict db.bookings vehicle.id req_start req_end then .conflict
          else if isPost then
            .proceed
              { vehicle_id := vehicleId
                gov_id := form.gov_id
                license := form.license
                start_point := form.start_point
                end_point := form.end_point
                start_date := formOr form.start_date start
                end_date := formOr form.end_date stop }
          else .renderForm
        | _, _ => .selectDates
    | _, _ => .selectDates

/-- Inclusive day count computed by `payment`:
`(end_date - start_date).days + 1`. -/
def bookingDays (sd ed : Date) : Int :=
  ((ed.toOrdinal : Int) - (sd.toOrdinal : Int)) + 1

/-- The amount computed by `payment`:
`vehicle.rent_per_day * days // 2` (Python floor division). -/
def quoteAmount (rent : Int) (sd ed : Date) : Int :=
  Int.fdiv (rent * bookingDays sd ed) 2

/-- Outcome of the `/payment` route. -/
inductive PayOutcome where
  | noInfo
  | exception
  | renderPayment (amount : Int)
  | confirmed (amount : Int)
deriving Repr, DecidableEq

/-- `/payment` (src/app.py lines 422–457): requires `booking_info`; looks up
the vehicle and parses the cart's dates (an unparsable date or a missing
vehicle raises, committing nothing); computes the amount; on POST inserts a
`Confirmed`/`Paid` booking carrying the cart's dates and marks the vehicle
`Unavailable` — with no overlap check of any kind. -/
def payment (db : DB) (userId : Nat) (info : Option BookingInfo) (isPost : Bool) :
    PayOutcome × DB :=
  match info with
  | none => (.noInfo, db)
  | some bi =>
    match findVehicle db bi.vehicle_id with
    | none => (.exception, db)
    | some vehicle =>
      match parseDate bi.start_date, parseDate bi.end_date with
      | some sd, some ed =>
        let amount := quoteAmount vehicle.rent_per_day sd ed
        if isPost then
          let booking : Booking :=
            { id := nextBookingId db
              user_id := userId
              vehicle_id := bi.vehicle_id
              gov_id := bi.gov_id
              license := bi.license
              start_point := bi.start_point
              end_point := bi.end_point
              start_date := bi.start_date
              end_date := bi.end_date
              status := "Confirmed"
              payment_status := "Paid"
              amount_paid := some amount }
          (.confirmed amount,
            { db with
                bookings := db.bookings ++ [booking]
                vehicles := db.vehicles.map fun w =>
                  if w.id = vehicle.id then { w with availability := "Unavailable" }
                  else w })
        else (.renderPayment amount, db)
      | _, _ => (.exception, db)

/-- Outcome of the cancellation routes. -/
inductive CancelOutcome where
  | notFound
  | forbidden
  | noBooking
  | vehicleError
  | cancelled
deriving Repr, DecidableEq

/-- The state change shared by both cancellation routes: the booking's status
becomes `Cancelled` and its vehicle's availability flag is set (blindly) to
`Available`. -/
def applyCancel (db : DB) (bookingId : Nat) (vehicleId : Nat) : DB :=
  { db with
      bookings := db.bookings.map fun x =>
        if x.id = bookingId then { x with status := "Cancelled" } else x
      vehicles := db.vehicles.map fun v =>
        if v.id = vehicleId then { v with availability := "Available" } else v }

/-- `/cancel-booking/<id>` (src/app.py lines 459–471): 404 on a missing
booking; refused unless the session user owns the booking; otherwise the
status is set to `Cancelled` and the vehicle flag to `Available`
unconditionally.  A dangling vehicle reference raises before commit. -/
def cancel_booking (db : DB) (sessionUserId : Nat) (bookingId : Nat) :
    CancelOutcome × DB :=
  match findBooking db bookingId with
  | none => (.notFound, db)
  | some booking =>
    if booking.user_id ≠ sessionUserId then (.forbidden, db)
    else
      match findVehicle db booking.vehicle_id with
      | none => (.vehicleError, db)
      | some _ => (.cancelled, applyCancel db bookingId booking.vehicle_id)

/-- `/admin/cancel-booking/<id>` (src/app.py lines 355–364): silently
redirects when the booking is missing; otherwise performs the same blind
cancellation, with no ownership or already-cancelled check. -/
def admin_cancel_booking (db : DB) (bookingId : Nat) : CancelOutcome × DB :=
  match findBooking db bookingId with
  | none => (.noBooking, db)
  | some booking =>
    match findVehicle db booking.vehicle_id with
    | none => (.vehicleError, db)
    | some _ => (.cancelled, applyCancel db bookingId booking.vehicle_id)

/-- The cancel entry point as the spec's `cancel(bookingId, userId, isAdmin)`:
an admin reaches `admin_cancel_booking` (its route is admin-gated), every
other user reaches `cancel_booking`. -/
def cancelRequest (db : DB) (userId : Nat) (isAdmin : Bool) (bookingId : Nat) :
    CancelOutcome × DB :=
  if isAdmin then admin_cancel_booking db bookingId
  else cancel_booking db userId bookingId

/-- Two bookings are compatible when they are not an active overlapping pair
on the same vehicle (a booking with unparsable dates constrains nothing). -/
def bookingsCompatible (b1 b2 : Booking) : Bool :=
  !(b1.vehicle_id == b2.vehicle_id) || b1.status == "Cancelled" ||
    b2.status == "Cancelled" ||
    match parseDate b1.start_date, parseDate b1.end_date,
        parseDate b2.start_date, parseDate b2.end_date with
    | some s1, some e1, some s2, some e2 => !(Date.le s1 e2 && Date.le s2 e1)
    | _, _, _, _ => true

/-- The no-overlap invariant: no vehicle has two distinct active bookings
with overlapping parsed ranges. -/
def noOverlap (db : DB) : Prop :=
  List.Pairwise (fun b1 b2 => bookingsCompatible b1 b2 = true) db.bookings

instance : DecidablePred noOverlap := fun db => by
  unfold noOverlap; infer_instance

/-! ## Concrete fixtures shared by the witnesses and counterexamples -/

def mkVehicle (id : Nat) (rent : Int) (avail : String) : Vehicle :=
  { id := id, vehicle_id := "VR", type := "Sedan", make := "Maruti",
    model := "Swift", year := 2022, color := "White", seating_capacity := 5,
    rent_per_day := rent, availability := avail }

def mkBooking (id uid vid : Nat) (sd ed status : String) : Booking :=
  { id := id, user_id := uid, vehicle_id := vid, gov_id := "G", license := "L",
    start_point := "A", end_point := "B", start_date := sd, end_date := ed,
    status := status, payment_status := "Paid", amount_paid := some 0 }

def sampleForm : BookForm :=
  { gov_id := "G", license := "L", start_point := "A", end_point := "B",
    start_date := none, end_date := none }

/-- Spec §3: the availability flag is denormalized state; two vehicles that
agree on everything except the flag. -/
def sameExceptFlag (v1 v2 : Vehicle) : Prop :=
  v2 = { v1 with availability := v2.availability }

instance : ∀ v1 v2, Decidable (sameExceptFlag v1 v2) := fun v1 v2 => by
  unfold sameExceptFlag; infer_instance

/-- The booking row inserted by the `payment` POST branch. -/
def committedBooking (db : DB) (userId : Nat) (bi : BookingInfo) (amount : Int) :
    Booking :=
  { id := nextBookingId db, user_id := userId, vehicle_id := bi.vehicle_id,
    gov_id := bi.gov_id, license := bi.license, start_point := bi.start_point,
    end_point := bi.end_point, start_date := bi.start_date,
    end_date := bi.end_date, status := "Confirmed", payment_status := "Paid",
    amount_paid := some amount }

/-- One vehicle, one confirmed booking 2024-01-01..2024-01-05 by user 2. -/
def exDb1 : DB :=
  { vehicles := [mkVehicle 1 2000 "Unavailable"],
    bookings := [mkBooking 1 2 1 "2024-01-01" "2024-01-05" "Confirmed"] }

/-- A cart for vehicle 1 over 2024-01-03..2024-01-06, overlapping `exDb1`'s
active booking. -/
def exBi1 : BookingInfo :=
  { vehicle_id := 1, gov_id := "G", license := "L", start_point := "A",
    end_point := "B", start_date := "2024-01-03", end_date := "2024-01-06" }

/-- One vehicle, no bookings: the start state of the interleaving trace. -/
def exDb0 : DB := { vehicles := [mkVehicle 1 2000 "Available"], bookings := [] }

/-- User 1's cart: vehicle 1, 2024-01-01..2024-01-05. -/
def exBiA : BookingInfo :=
  { vehicle_id := 1, gov_id := "G", license := "L", start_point := "A",
    end_point := "B", start_date := "2024-01-01", end_date := "2024-01-05" }

/-- User 2's cart: vehicle 1, 2024-01-03..2024-01-06. -/
def exBiB : BookingInfo :=
  { vehicle_id := 1, gov_id := "G", license := "L", start_point := "A",
    end_point := "B", start_date := "2024-01-03", end_date := "2024-01-06" }

/-- Two non-overlapping confirmed bookings on vehicle 1: booking 1 (user 2)
in February, booking 2 (user 3) covering 2024-01-01..2024-01-05. -/
def exDb3 : DB :=
  { vehicles := [mkVehicle 1 2000 "Unavailable"],
    bookings := [mkBooking 1 2 1 "2024-02-01" "2024-02-03" "Confirmed",
                 mkBooking 2 3 1 "2024-01-01" "2024-01-05" "Confirmed"] }

/-- A single already-Cancelled booking on a vehicle flagged Unavailable. -/
def exDb4 : DB :=
  { vehicles := [mkVehicle 1 2000 "Unavailable"],
    bookings := [mkBooking 1 2 1 "2024-01-01" "2024-01-05" "Cancelled"] }

/-- `exDb1` with the vehicle flag flipped to Available. -/
def exDb1Flag : DB :=
  { vehicles := [mkVehicle 1 2000 "Available"],
    bookings := [mkBooking 1 2 1 "2024-01-01" "2024-01-05" "Confirmed"] }


/-! ## Calendar arithmetic -/

theorem daysBeforeMonth_succ (y m : Nat) (hm : 1 ≤ m) :
    daysBeforeMonth y (m + 1) = daysBeforeMonth y m + daysInMonth y m := by
  match m, hm with
  | m + 1, _ => rfl

theorem daysBeforeMonth_add_le (y a b : Nat) (ha : 1 ≤ a) (hab : a < b) :
    daysBeforeMonth y a + daysInMonth y a ≤ daysBeforeMonth y b := by
  induction b with
  | zero => omega
  | succ n ih =>
    rcases Nat.lt_succ_iff_lt_or_eq.mp hab with h | h
    · have h1 := ih h
      have h2 : daysBeforeMonth y (n + 1) = daysBeforeMonth y n + daysInMonth y n :=
        daysBeforeMonth_succ y n (by omega)
      omega
    · subst h
      exact (daysBeforeMonth_succ y a ha).ge

theorem daysBeforeMonth_13 (y : Nat) : daysBeforeMonth y 13 = daysInYear y := by
  cases h : isLeap y <;>
    simp [daysBeforeMonth, daysInMonth, daysInYear, h]

theorem daysBeforeMonth_day_le (y m d : Nat) (hm1 : 1 ≤ m) (hm : m ≤ 12)
    (hd : d ≤ daysInMonth y m) :
    daysBeforeMonth y m + d ≤ daysInYear y := by
  have h1 := daysBeforeMonth_add_le y m 13 hm1 (by omega)
  have h2 := daysBeforeMonth_13 y
  omega

set_option maxHeartbeats 1600000 in
theorem daysBeforeYear_succ (y : Nat) (hy : 1 ≤ y) :
    daysBeforeYear (y + 1) = daysBeforeYear y + daysInYear y := by
  have hiff : isLeap y = true ↔ ((y % 4 = 0 ∧ y % 100 ≠ 0) ∨ y % 400 = 0) := by
    simp [isLeap]
  cases h : isLeap y
  · have hprop : ¬ ((y % 4 = 0 ∧ y % 100 ≠ 0) ∨ y % 400 = 0) := by
      rw [← hiff]; simp [h]
    simp only [daysBeforeYear, daysInYear, h, Bool.false_eq_true, if_false]
    omega
  · have hprop := hiff.mp h
    simp only [daysBeforeYear, daysInYear, h, if_true]
    omega

theorem daysBeforeYear_add_le (y1 y2 : Nat) (h1 : 1 ≤ y1) (h : y1 < y2) :
    daysBeforeYear y1 + daysInYear y1 ≤ daysBeforeYear y2 := by
  induction y2 with
  | zero => omega
  | succ n ih =>
    rcases Nat.lt_succ_iff_lt_or_eq.mp h with h' | h'
    · have ha := ih h'
      have hb := daysBeforeYear_succ n (by omega)
      omega
    · subst h'
      exact (daysBeforeYear_succ y1 h1).ge

theorem Date.le_iff {a b : Date} :
    Date.le a b = true ↔
      a.year < b.year ∨ (a.year = b.year ∧
        (a.month < b.month ∨ (a.month = b.month ∧ a.day ≤ b.day))) := by
  simp [Date.le, Nat.blt_eq, Nat.ble_eq, beq_iff_eq]

theorem toOrdinal_le_of_le {a b : Date} (ha : a.valid) (hb : b.valid)
    (h : Date.le a b = true) : a.toOrdinal ≤ b.toOrdinal := by
  obtain ⟨hay1, hay2, ham1, ham2, had1, had2⟩ := ha
  obtain ⟨hby1, hby2, hbm1, hbm2, hbd1, hbd2⟩ := hb
  unfold Date.toOrdinal
  rcases Date.le_iff.mp h with hy | ⟨hy, hm | ⟨hm, hd⟩⟩
  · have h1 : daysBeforeMonth a.year a.month + a.day ≤ daysInYear a.year :=
      daysBeforeMonth_day_le a.year a.month a.day ham1 ham2 had2
    have h2 := daysBeforeYear_add_le a.year b.year hay1 hy
    omega
  · rw [hy]
    have h1 := daysBeforeMonth_add_le b.year a.month b.month ham1 hm
    have h2 : daysBeforeMonth b.year a.month = daysBeforeMonth a.year a.month := by
      rw [hy]
    have h3 : daysInMonth b.year a.month = daysInMonth a.year a.month := by
      rw [hy]
    omega
  · rw [hy, hm]
    omega


/-! ## Membership characterisations of the two availability scans -/

theorem mem_unavailable_iff (bookings : List Booking) (rs re : Date) (v : Nat) :
    v ∈ unavailable_vehicle_ids bookings rs re ↔
      ∃ b ∈ bookings, b.status ≠ "Cancelled" ∧
        ∃ bs be, parseDate b.start_date = some bs ∧ parseDate b.end_date = some be ∧
          (Date.le bs re && Date.le rs be) = true ∧ b.vehicle_id = v := by
  unfold unavailable_vehicle_ids
  simp only [List.mem_filterMap, List.mem_filter, bne_iff_ne, ne_eq]
  constructor
  · rintro ⟨b, ⟨hb, hst⟩, hmap⟩
    cases hps : parseDate b.start_date with
    | none =>
      rw [hps] at hmap
      simp at hmap
    | some bs =>
      cases hpe : parseDate b.end_date with
      | none =>
        rw [hps, hpe] at hmap
        simp at hmap
      | some be =>
        rw [hps, hpe] at hmap
        simp only at hmap
        by_cases hov : (Date.le bs re && Date.le rs be) = true
        · rw [if_pos hov] at hmap
          exact ⟨b, hb, hst, bs, be, hps, hpe, hov, Option.some.inj hmap⟩
        · rw [if_neg hov] at hmap
          simp at hmap
  · rintro ⟨b, hb, hst, bs, be, hps, hpe, hov, hv⟩
    refine ⟨b, ⟨hb, hst⟩, ?_⟩
    rw [hps, hpe]
    simp only [if_pos hov]
    exact congrArg some hv

theorem vehicle_conflict_iff (bookings : List Booking) (vid : Nat) (rs re : Date) :
    vehicle_conflict bookings vid rs re = true ↔
      ∃ b ∈ bookings, b.vehicle_id = vid ∧ b.status ≠ "Cancelled" ∧
        ∃ bs be, parseDate b.start_date = some bs ∧ parseDate b.end_date = some be ∧
          (Date.le bs re && Date.le rs be) = true := by
  unfold vehicle_conflict
  simp only [List.any_eq_true, List.mem_filter]
  constructor
  · rintro ⟨b, ⟨hb, hfil⟩, hcond⟩
    rw [Bool.and_eq_true, beq_iff_eq, bne_iff_ne] at hfil
    cases hps : parseDate b.start_date with
    | none =>
      rw [hps] at hcond
      simp at hcond
    | some bs =>
      cases hpe : parseDate b.end_date with
      | none =>
        rw [hps, hpe] at hcond
        simp at hcond
      | some be =>
        rw [hps, hpe] at hcond
        exact ⟨b, hb, hfil.1, hfil.2, bs, be, hps, hpe, hcond⟩
  · rintro ⟨b, hb, hvid, hst, bs, be, hps, hpe, hov⟩
    refine ⟨b, ⟨hb, ?_⟩, ?_⟩
    · rw [Bool.and_eq_true, beq_iff_eq, bne_iff_ne]
      exact ⟨hvid, hst⟩
    · rw [hps, hpe]
      exact hov


/-! ## Generic helper lemmas -/

theorem findVehicle_id {db : DB} {pk : Nat} {v : Vehicle}
    (h : findVehicle db pk = some v) : v.id = pk := by
  unfold findVehicle at h
  have h2 := List.find?_some h
  simpa using h2

/-! ## C6: the overlap predicate -/

/-- C6: `overlaps A B` is true iff `A.start ≤ B.end ∧ A.end ≥ B.start` (both
endpoints inclusive), so ranges sharing exactly one boundary day — such as
2024-01-01..2024-01-05 and 2024-01-05..2024-01-10 — do overlap, and this same
predicate characterises both availability checks: membership in the
dashboard's unavailable-vehicle set and the booking step's conflict test. -/
theorem C6_overlap_predicate :
    (∀ A B : DateRange,
      A.overlaps B = (Date.le A.start B.endDate && Date.le B.start A.endDate)) ∧
    DateRange.overlaps ⟨⟨2024, 1, 1⟩, ⟨2024, 1, 5⟩⟩ ⟨⟨2024, 1, 5⟩, ⟨2024, 1, 10⟩⟩ = true ∧
    (∀ (bookings : List Booking) (rs re : Date) (v : Nat),
      v ∈ unavailable_vehicle_ids bookings rs re ↔
        ∃ b ∈ bookings, b.status ≠ "Cancelled" ∧
          ∃ bs be, parseDate b.start_date = some bs ∧ parseDate b.end_date = some be ∧
            DateRange.overlaps ⟨bs, be⟩ ⟨rs, re⟩ = true ∧ b.vehicle_id = v) ∧
    (∀ (bookings : List Booking) (vid : Nat) (rs re : Date),
      vehicle_conflict bookings vid rs re = true ↔
        ∃ b ∈ bookings, b.vehicle_id = vid ∧ b.status ≠ "Cancelled" ∧
          ∃ bs be, parseDate b.start_date = some bs ∧ parseDate b.end_date = some be ∧
            DateRange.overlaps ⟨bs, be⟩ ⟨rs, re⟩ = true) := by
  refine ⟨fun A B => rfl, by decide, ?_, ?_⟩
  · intro bookings rs re v
    rw [mem_unavailable_iff]
    exact Iff.rfl
  · intro bookings vid rs re
    rw [vehicle_conflict_iff]
    exact Iff.rfl

/-! ## C7: the dashboard's unavailable-vehicle set -/

/-- C7: a vehicle id is in the dashboard's unavailable set iff some
non-Cancelled booking of that vehicle has stored dates that parse in the
fixed format and whose range overlaps the requested window; bookings whose
stored dates fail to parse contribute nothing (and the scan never fails). -/
theorem C7_unavailable_vehicle_ids (bookings : List Booking) (rs re : Date) (v : Nat) :
    v ∈ unavailable_vehicle_ids bookings rs re ↔
      ∃ b ∈ bookings, b.status ≠ "Cancelled" ∧
        ∃ bs be, parseDate b.start_date = some bs ∧ parseDate b.end_date = some be ∧
          (Date.le bs re && Date.le rs be) = true ∧ b.vehicle_id = v :=
  mem_unavailable_iff bookings rs re v

theorem C7_witness :
    1 ∈ unavailable_vehicle_ids exDb1.bookings ⟨2024, 1, 3⟩ ⟨2024, 1, 6⟩ ↔
      ∃ b ∈ exDb1.bookings, b.status ≠ "Cancelled" ∧
        ∃ bs be, parseDate b.start_date = some bs ∧ parseDate b.end_date = some be ∧
          (Date.le bs ⟨2024, 1, 6⟩ && Date.le ⟨2024, 1, 3⟩ be) = true ∧ b.vehicle_id = 1 :=
  C7_unavailable_vehicle_ids exDb1.bookings ⟨2024, 1, 3⟩ ⟨2024, 1, 6⟩ 1

/-! ## C8: the pricing formula -/

/-- C8: for every rate `r` and valid range with `start ≤ end`, the quoted
amount is `floor(r * dayCount / 2)` with
`dayCount = (end - start in days) + 1 ≥ 1`; and `quote(2000, 3-day range)`
is `3000`. -/
theorem C8_pricing (r : Int) (sd ed : Date) (hs : sd.valid) (he : ed.valid)
    (hle : Date.le sd ed = true) :
    quoteAmount r sd ed = Int.fdiv (r * bookingDays sd ed) 2 ∧
    bookingDays sd ed = ((ed.toOrdinal : Int) - (sd.toOrdinal : Int)) + 1 ∧
    1 ≤ bookingDays sd ed ∧
    quoteAmount 2000 ⟨2024, 3, 1⟩ ⟨2024, 3, 3⟩ = 3000 := by
  refine ⟨rfl, rfl, ?_, by decide⟩
  have h := toOrdinal_le_of_le hs he hle
  unfold bookingDays
  omega

theorem C8_witness :
    Date.valid ⟨2024, 3, 1⟩ ∧ Date.valid ⟨2024, 3, 3⟩ ∧
    Date.le ⟨2024, 3, 1⟩ ⟨2024, 3, 3⟩ = true ∧
    (quoteAmount 2000 ⟨2024, 3, 1⟩ ⟨2024, 3, 3⟩ =
        Int.fdiv (2000 * bookingDays ⟨2024, 3, 1⟩ ⟨2024, 3, 3⟩) 2 ∧
      bookingDays ⟨2024, 3, 1⟩ ⟨2024, 3, 3⟩ =
        ((Date.toOrdinal ⟨2024, 3, 3⟩ : Int) - (Date.toOrdinal ⟨2024, 3, 1⟩ : Int)) + 1 ∧
      1 ≤ bookingDays ⟨2024, 3, 1⟩ ⟨2024, 3, 3⟩ ∧
      quoteAmount 2000 ⟨2024, 3, 1⟩ ⟨2024, 3, 3⟩ = 3000) :=
  ⟨by decide, by decide, by decide,
    C8_pricing 2000 ⟨2024, 3, 1⟩ ⟨2024, 3, 3⟩ (by decide) (by decide) (by decide)⟩

/-! ## C9: availability decisions ignore the denormalized flag -/

theorem find_sameExceptFlag {l1 l2 : List Vehicle}
    (h : List.Forall₂ sameExceptFlag l1 l2) (pk : Nat) :
    (l1.find? (fun v => v.id == pk) = none ∧ l2.find? (fun v => v.id == pk) = none) ∨
      ∃ v1 v2, l1.find? (fun v => v.id == pk) = some v1 ∧
        l2.find? (fun v => v.id == pk) = some v2 ∧ sameExceptFlag v1 v2 := by
  induction h with
  | nil => exact .inl ⟨rfl, rfl⟩
  | @cons a1 a2 t1 t2 hrel htail ih =>
    have hid : a2.id = a1.id := by rw [hrel]
    by_cases hpk : (a1.id == pk) = true
    · rw [List.find?_cons_of_pos (p := fun v => v.id == pk) t1 hpk,
        List.find?_cons_of_pos (p := fun v => v.id == pk) t2 (by simp only [hid]; exact hpk)]
      exact .inr ⟨a1, a2, rfl, rfl, hrel⟩
    · rw [List.find?_cons_of_neg (p := fun v => v.id == pk) t1 hpk,
        List.find?_cons_of_neg (p := fun v => v.id == pk) t2 (by simp only [hid]; exact hpk)]
      exact ih

/-- C9: two states that agree on all bookings and on all vehicle fields
except the denormalized availability flag give the same dashboard
unavailable-vehicle answer and the same `book_vehicle` outcome: no
availability decision reads the flag. -/
theorem C9_flag_independent (db1 db2 : DB)
    (hb : db1.bookings = db2.bookings)
    (hv : List.Forall₂ sameExceptFlag db1.vehicles db2.vehicles) :
    (∀ rental_start rental_end,
      dashboard db1 rental_start rental_end = dashboard db2 rental_start rental_end) ∧
    (∀ rental_start rental_end vid isPost form,
      book_vehicle db1 rental_start rental_end vid isPost form =
        book_vehicle db2 rental_start rental_end vid isPost form) := by
  constructor
  · intro rs re
    unfold dashboard
    rw [hb]
  · intro rs re vid isPost form
    unfold book_vehicle findVehicle
    rw [hb]
    rcases find_sameExceptFlag hv vid with ⟨h1, h2⟩ | ⟨v1, v2, h1, h2, hrel⟩
    · rw [h1, h2]
    · have hid : v2.id = v1.id := by rw [hrel]
      simp only [h1, h2]
      rw [hid]

theorem C9_witness :
    exDb1.bookings = exDb1Flag.bookings ∧
    List.Forall₂ sameExceptFlag exDb1.vehicles exDb1Flag.vehicles ∧
    ((∀ rental_start rental_end,
      dashboard exDb1 rental_start rental_end =
        dashboard exDb1Flag rental_start rental_end) ∧
    (∀ rental_start rental_end vid isPost form,
      book_vehicle exDb1 rental_start rental_end vid isPost form =
        book_vehicle exDb1Flag rental_start rental_end vid isPost form)) :=
  ⟨rfl, List.Forall₂.cons (by decide) List.Forall₂.nil,
    C9_flag_independent exDb1 exDb1Flag rfl
      (List.Forall₂.cons (by decide) List.Forall₂.nil)⟩

/-! ## C5: cancel authorization -/

/-- C5: when the booking exists, a cancel request yields `forbidden` exactly
when the requester is neither the booking's owner nor an admin, and on the
forbidden outcome the whole state is unchanged. -/
theorem C5_cancel_authorization (db : DB) (userId : Nat) (isAdmin : Bool)
    (bookingId : Nat) (b : Booking)
    (hfind : findBooking db bookingId = some b) :
    ((cancelRequest db userId isAdmin bookingId).1 = .forbidden ↔
      (userId ≠ b.user_id ∧ isAdmin = false)) ∧
    ((cancelRequest db userId isAdmin bookingId).1 = .forbidden →
      (cancelRequest db userId isAdmin bookingId).2 = db) := by
  cases isAdmin with
  | false =>
    simp only [cancelRequest, Bool.false_eq_true, if_false, cancel_booking, hfind]
    by_cases hown : b.user_id = userId
    · rw [if_neg (not_not_intro hown)]
      cases hfv : findVehicle db b.vehicle_id with
      | none => simp [hown]
      | some w => simp [hown]
    · rw [if_pos hown]
      exact ⟨⟨fun _ => ⟨fun h => hown h.symm, by trivial⟩, fun _ => rfl⟩, fun _ => rfl⟩
  | true =>
    simp only [cancelRequest, if_true, admin_cancel_booking, hfind]
    cases hfv : findVehicle db b.vehicle_id with
    | none => simp
    | some w => simp

theorem C5_witness :
    findBooking exDb1 1 = some (mkBooking 1 2 1 "2024-01-01" "2024-01-05" "Confirmed") ∧
    (((cancelRequest exDb1 7 false 1).1 = .forbidden ↔
      ((7 : Nat) ≠ (mkBooking 1 2 1 "2024-01-01" "2024-01-05" "Confirmed").user_id ∧
        false = false)) ∧
    ((cancelRequest exDb1 7 false 1).1 = .forbidden →
      (cancelRequest exDb1 7 false 1).2 = exDb1)) :=
  ⟨by decide,
    C5_cancel_authorization exDb1 7 false 1
      (mkBooking 1 2 1 "2024-01-01" "2024-01-05" "Confirmed") (by decide)⟩

/-! ## Cancellation helper lemmas -/

theorem applyCancel_vehicle_flag (db : DB) (bid vid : Nat) :
    ∀ w ∈ (applyCancel db bid vid).vehicles, w.id = vid →
      w.availability = "Available" := by
  intro w hw hid
  unfold applyCancel at hw
  simp only [List.mem_map] at hw
  obtain ⟨v, hv, hEq⟩ := hw
  by_cases h : v.id = vid
  · rw [if_pos h] at hEq
    rw [← hEq]
  · rw [if_neg h] at hEq
    subst hEq
    exact absurd hid h

theorem applyCancel_booking_status (db : DB) (bid vid : Nat) :
    ∀ x ∈ (applyCancel db bid vid).bookings, x.id = bid →
      x.status = "Cancelled" := by
  intro x hx hid
  unfold applyCancel at hx
  simp only [List.mem_map] at hx
  obtain ⟨y, hy, hEq⟩ := hx
  by_cases h : y.id = bid
  · rw [if_pos h] at hEq
    rw [← hEq]
  · rw [if_neg h] at hEq
    subst hEq
    exact absurd hid h

theorem cancel_booking_cancelled_inv {db : DB} {userId bookingId : Nat} {db2 : DB}
    (h : cancel_booking db userId bookingId = (.cancelled, db2)) :
    ∃ b, findBooking db bookingId = some b ∧ b.user_id = userId ∧
      db2 = applyCancel db bookingId b.vehicle_id := by
  unfold cancel_booking at h
  cases hf : findBooking db bookingId with
  | none =>
    rw [hf] at h
    simp at h
  | some b =>
    rw [hf] at h
    simp only at h
    by_cases hown : b.user_id ≠ userId
    · rw [if_pos hown] at h
      simp at h
    · rw [if_neg hown] at h
      cases hfv : findVehicle db b.vehicle_id with
      | none =>
        rw [hfv] at h
        simp at h
      | some w =>
        rw [hfv] at h
        simp only [Prod.mk.injEq] at h
        exact ⟨b, rfl, not_not.mp hown, h.2.symm⟩

theorem admin_cancel_cancelled_inv {db : DB} {bookingId : Nat} {db2 : DB}
    (h : admin_cancel_booking db bookingId = (.cancelled, db2)) :
    ∃ b, findBooking db bookingId = some b ∧
      db2 = applyCancel db bookingId b.vehicle_id := by
  unfold admin_cancel_booking at h
  cases hf : findBooking db bookingId with
  | none =>
    rw [hf] at h
    simp at h
  | some b =>
    rw [hf] at h
    simp only at h
    cases hfv : findVehicle db b.vehicle_id with
    | none =>
      rw [hfv] at h
      simp at h
    | some w =>
      rw [hfv] at h
      simp only [Prod.mk.injEq] at h
      exact ⟨b, rfl, h.2.symm⟩

/-! ## C3: cancel and the availability flag -/

/-- C3 (amended): a successful cancel — by the owner route or by the admin
route — sets the cancelled booking's vehicle flag blindly to "Available",
regardless of any other active booking that may still cover the current
date; the flag is never recomputed from the remaining bookings. -/
theorem C3_cancel_blind_flag (db : DB) (userId bookingId : Nat) (db2 : DB)
    (h : cancel_booking db userId bookingId = (.cancelled, db2) ∨
         admin_cancel_booking db bookingId = (.cancelled, db2)) :
    ∃ b, findBooking db bookingId = some b ∧
      ∀ w ∈ db2.vehicles, w.id = b.vehicle_id → w.availability = "Available" := by
  rcases h with h | h
  · obtain ⟨b, hf, _, hdb⟩ := cancel_booking_cancelled_inv h
    subst hdb
    exact ⟨b, hf, applyCancel_vehicle_flag db bookingId b.vehicle_id⟩
  · obtain ⟨b, hf, hdb⟩ := admin_cancel_cancelled_inv h
    subst hdb
    exact ⟨b, hf, applyCancel_vehicle_flag db bookingId b.vehicle_id⟩

/-- C3 counterexample: cancelling booking 1 of `exDb3` (by its owner, user 2)
succeeds; booking 2 stays active on the same vehicle and covers the current
date 2024-01-03; yet the vehicle's flag ends up "Available", where the claim
demands "Unavailable". -/
theorem C3_counterexample :
    (cancel_booking exDb3 2 1).1 = .cancelled ∧
    (∃ x ∈ (cancel_booking exDb3 2 1).2.bookings, x.id = 2 ∧
      x.status = "Confirmed" ∧ x.vehicle_id = 1 ∧
      parseDate x.start_date = some ⟨2024, 1, 1⟩ ∧
      parseDate x.end_date = some ⟨2024, 1, 5⟩ ∧
      (Date.le ⟨2024, 1, 1⟩ ⟨2024, 1, 3⟩ && Date.le ⟨2024, 1, 3⟩ ⟨2024, 1, 5⟩) = true) ∧
    (∀ w ∈ (cancel_booking exDb3 2 1).2.vehicles, w.id = 1 →
      w.availability = "Available") ∧
    ¬ (∀ w ∈ (cancel_booking exDb3 2 1).2.vehicles, w.id = 1 →
      w.availability = "Unavailable") := by
  decide

theorem C3_witness :
    (cancel_booking exDb3 2 1 = (.cancelled, (cancel_booking exDb3 2 1).2) ∨
      admin_cancel_booking exDb3 1 = (.cancelled, (cancel_booking exDb3 2 1).2)) ∧
    ∃ b, findBooking exDb3 1 = some b ∧
      ∀ w ∈ (cancel_booking exDb3 2 1).2.vehicles, w.id = b.vehicle_id →
        w.availability = "Available" :=
  ⟨.inl (by decide),
    C3_cancel_blind_flag exDb3 2 1 ((cancel_booking exDb3 2 1).2) (.inl (by decide))⟩

/-! ## C4: cancelling an already-Cancelled booking -/

/-- C4 (amended): there is no AlreadyCancelled error anywhere: cancelling an
already-Cancelled booking silently succeeds on both routes; the status stays
"Cancelled" but the vehicle's availability flag is (re)set to "Available",
so the state is not left unchanged. -/
theorem C4_cancel_not_idempotent (db : DB) (userId bookingId : Nat) (b : Booking)
    (hfind : findBooking db bookingId = some b)
    (hstatus : b.status = "Cancelled")
    (hown : b.user_id = userId)
    (v : Vehicle) (hfv : findVehicle db b.vehicle_id = some v) :
    (cancel_booking db userId bookingId).1 = .cancelled ∧
    (admin_cancel_booking db bookingId).1 = .cancelled ∧
    (∀ x ∈ (cancel_booking db userId bookingId).2.bookings, x.id = bookingId →
      x.status = "Cancelled") ∧
    (∀ w ∈ (cancel_booking db userId bookingId).2.vehicles, w.id = b.vehicle_id →
      w.availability = "Available") := by
  unfold cancel_booking admin_cancel_booking
  simp only [hfind, hfv, if_neg (not_not_intro hown)]
  exact ⟨trivial, trivial, applyCancel_booking_status db bookingId b.vehicle_id,
    applyCancel_vehicle_flag db bookingId b.vehicle_id⟩

/-- C4 counterexample: in `exDb4` booking 1 is already Cancelled and its
vehicle is flagged "Unavailable".  The owner's cancel succeeds (no
AlreadyCancelled outcome), and it changes the vehicle flag to "Available" —
the booking's vehicle state is not left unchanged. -/
theorem C4_counterexample :
    (∃ b, findBooking exDb4 1 = some b ∧ b.status = "Cancelled") ∧
    (cancel_booking exDb4 2 1).1 = .cancelled ∧
    (admin_cancel_booking exDb4 1).1 = .cancelled ∧
    (∀ w ∈ exDb4.vehicles, w.availability = "Unavailable") ∧
    (∀ w ∈ (cancel_booking exDb4 2 1).2.vehicles, w.availability = "Available") ∧
    (cancel_booking exDb4 2 1).2 ≠ exDb4 := by
  decide

theorem C4_witness :
    findBooking exDb4 1 = some (mkBooking 1 2 1 "2024-01-01" "2024-01-05" "Cancelled") ∧
    ((cancel_booking exDb4 2 1).1 = .cancelled ∧
    (admin_cancel_booking exDb4 1).1 = .cancelled ∧
    (∀ x ∈ (cancel_booking exDb4 2 1).2.bookings, x.id = 1 →
      x.status = "Cancelled") ∧
    (∀ w ∈ (cancel_booking exDb4 2 1).2.vehicles,
      w.id = (mkBooking 1 2 1 "2024-01-01" "2024-01-05" "Cancelled").vehicle_id →
      w.availability = "Available")) :=
  ⟨by decide,
    C4_cancel_not_idempotent exDb4 2 1
      (mkBooking 1 2 1 "2024-01-01" "2024-01-05" "Cancelled") (by decide) (by decide)
      (by decide) (mkVehicle 1 2000 "Unavailable") (by decide)⟩

/-! ## C1: the commit step does not re-check overlap -/

/-- C1 (amended): the payment POST commit performs no overlap re-check:
whenever the cart is present, its vehicle exists and its dates parse, the
commit succeeds and inserts the booking row — even when, at the moment of
commit, an active booking of the same vehicle overlaps the candidate range.
No DateConflict is possible at commit time; the only overlap check is the
earlier, separate `book_vehicle` step. -/
theorem C1_commit_no_recheck (db : DB) (userId : Nat) (bi : BookingInfo)
    (vehicle : Vehicle) (sd ed : Date)
    (hfv : findVehicle db bi.vehicle_id = some vehicle)
    (hps : parseDate bi.start_date = some sd)
    (hpe : parseDate bi.end_date = some ed)
    (hconf : vehicle_conflict db.bookings bi.vehicle_id sd ed = true) :
    (payment db userId (some bi) true).1 =
      .confirmed (quoteAmount vehicle.rent_per_day sd ed) ∧
    (payment db userId (some bi) true).2.bookings =
      db.bookings ++ [committedBooking db userId bi
        (quoteAmount vehicle.rent_per_day sd ed)] := by
  unfold payment
  simp only [hfv, hps, hpe, if_true]
  exact ⟨trivial, rfl⟩

/-- C1 counterexample: in `exDb1` an active booking for vehicle 1 covers
2024-01-01..2024-01-05 and the cart `exBi1` asks for the overlapping range
2024-01-03..2024-01-06; the payment POST commit nevertheless succeeds and a
new booking row is inserted — not the DateConflict failure the claim
requires. -/
theorem C1_counterexample :
    parseDate exBi1.start_date = some ⟨2024, 1, 3⟩ ∧
    parseDate exBi1.end_date = some ⟨2024, 1, 6⟩ ∧
    vehicle_conflict exDb1.bookings exBi1.vehicle_id ⟨2024, 1, 3⟩ ⟨2024, 1, 6⟩ = true ∧
    (payment exDb1 7 (some exBi1) true).1 = .confirmed 4000 ∧
    (payment exDb1 7 (some exBi1) true).2.bookings.length =
      exDb1.bookings.length + 1 := by
  decide

theorem C1_witness :
    findVehicle exDb1 exBi1.vehicle_id = some (mkVehicle 1 2000 "Unavailable") ∧
    parseDate exBi1.start_date = some ⟨2024, 1, 3⟩ ∧
    parseDate exBi1.end_date = some ⟨2024, 1, 6⟩ ∧
    vehicle_conflict exDb1.bookings exBi1.vehicle_id ⟨2024, 1, 3⟩ ⟨2024, 1, 6⟩ = true ∧
    ((payment exDb1 7 (some exBi1) true).1 =
      .confirmed (quoteAmount (mkVehicle 1 2000 "Unavailable").rent_per_day
        ⟨2024, 1, 3⟩ ⟨2024, 1, 6⟩) ∧
    (payment exDb1 7 (some exBi1) true).2.bookings =
      exDb1.bookings ++ [committedBooking exDb1 7 exBi1
        (quoteAmount (mkVehicle 1 2000 "Unavailable").rent_per_day
          ⟨2024, 1, 3⟩ ⟨2024, 1, 6⟩)]) :=
  ⟨by decide, by decide, by decide, by decide,
    C1_commit_no_recheck exDb1 7 exBi1 (mkVehicle 1 2000 "Unavailable")
      ⟨2024, 1, 3⟩ ⟨2024, 1, 6⟩ (by decide) (by decide) (by decide) (by decide)⟩

/-! ## Inverting a successful booking step -/

theorem book_vehicle_proceed_inv {db : DB} {ss se : String} {vid : Nat}
    {form : BookForm} {info : BookingInfo}
    (h : book_vehicle db (some ss) (some se) vid true form = .proceed info) :
    ∃ vehicle rs re, findVehicle db vid = some vehicle ∧
      ¬ (ss = "" ∨ se = "") ∧
      parseDate ss = some rs ∧ parseDate se = some re ∧
      vehicle_conflict db.bookings vehicle.id rs re = false ∧
      info = { vehicle_id := vid, gov_id := form.gov_id, license := form.license,
               start_point := form.start_point, end_point := form.end_point,
               start_date := formOr form.start_date ss,
               end_date := formOr form.end_date se } := by
  unfold book_vehicle at h
  split at h
  · exact absurd h (by simp)
  next vehicle hfv =>
    split at h
    next start stop hss hse =>
      injection hss with hss2
      injection hse with hse2
      subst hss2 hse2
      split at h
      · exact absurd h (by simp)
      next hempty =>
        split at h
        next rs re hps hpe =>
          split at h
          · exact absurd h (by simp)
          next hc =>
            rw [if_pos rfl] at h
            refine ⟨vehicle, rs, re, hfv, hempty, hps, hpe,
              Bool.eq_false_iff.mpr hc, ?_⟩
            injection h with h2
            exact h2.symm
        next => exact absurd h (by simp)
    next himp => exact (himp ss se rfl rfl).elim

/-! ## C10: form dates are stored but never overlap-checked -/

/-- C10: in the booking POST step the conflict decision depends only on the
session dates (changing the form's date fields cannot turn a conflict into a
non-conflict or back); the cart stored on success carries
`formOr form.start_date ss` — i.e. the form date whenever non-empty, the
session date only as fallback; and the payment commit then writes exactly the
cart's dates into the inserted booking with no overlap check of its own. -/
theorem C10_form_dates (db : DB) (ss se : String) (vid : Nat) (form : BookForm)
    (o1 o2 : Option String) :
    (book_vehicle db (some ss) (some se) vid true form = .conflict ↔
      book_vehicle db (some ss) (some se) vid true
        { form with start_date := o1, end_date := o2 } = .conflict) ∧
    (∀ info, book_vehicle db (some ss) (some se) vid true form = .proceed info →
      info.start_date = formOr form.start_date ss ∧
      info.end_date = formOr form.end_date se ∧
      info.vehicle_id = vid) ∧
    (∀ fs : String, fs ≠ "" → formOr (some fs) ss = fs) ∧
    (∀ (userId : Nat) (bi : BookingInfo) (vehicle : Vehicle) (sd ed : Date),
      findVehicle db bi.vehicle_id = some vehicle →
      parseDate bi.start_date = some sd → parseDate bi.end_date = some ed →
      (payment db userId (some bi) true).2.bookings =
        db.bookings ++ [committedBooking db userId bi
          (quoteAmount vehicle.rent_per_day sd ed)]) := by
  refine ⟨?_, ?_, ?_, ?_⟩
  · unfold book_vehicle
    cases hfv : findVehicle db vid with
    | none => simp
    | some vehicle =>
      simp only
      by_cases hempty : ss = "" ∨ se = ""
      · rw [if_pos hempty, if_pos hempty]
      · rw [if_neg hempty, if_neg hempty]
        cases hps : parseDate ss with
        | none => rfl
        | some rs =>
          cases hpe : parseDate se with
          | none => rfl
          | some re =>
            by_cases hc : vehicle_conflict db.bookings vehicle.id rs re = true
            · simp [hc]
            · simp [hc]
  · intro info h
    obtain ⟨vehicle, rs, re, _, _, _, _, _, hinfo⟩ := book_vehicle_proceed_inv h
    subst hinfo
    exact ⟨rfl, rfl, rfl⟩
  · intro fs hfs
    simp [formOr, hfs]
  · intro userId bi vehicle sd ed hfv hps hpe
    unfold payment
    simp only [hfv, hps, hpe, if_true]
    rfl

/-! ## C2: the no-overlap invariant -/

/-- C2 counterexample: a sequential trace of the program's own operations
reaches a state with two overlapping active bookings on one vehicle.  From
the empty booking table, user 1 and user 2 each pass the `book_vehicle`
check (no booking exists yet); then both payment commits succeed, because
the commit step re-checks nothing. -/
theorem C2_counterexample :
    book_vehicle exDb0 (some "2024-01-01") (some "2024-01-05") 1 true sampleForm
      = .proceed exBiA ∧
    book_vehicle exDb0 (some "2024-01-03") (some "2024-01-06") 1 true sampleForm
      = .proceed exBiB ∧
    (payment exDb0 2 (some exBiB) true).1 = .confirmed 4000 ∧
    (payment (payment exDb0 2 (some exBiB) true).2 1 (some exBiA) true).1
      = .confirmed 5000 ∧
    ¬ noOverlap (payment (payment exDb0 2 (some exBiB) true).2 1 (some exBiA) true).2 := by
  decide

theorem payment_post_db (db : DB) (userId : Nat) (bi : BookingInfo)
    (vehicle : Vehicle) (sd ed : Date)
    (hfv : findVehicle db bi.vehicle_id = some vehicle)
    (hps : parseDate bi.start_date = some sd)
    (hpe : parseDate bi.end_date = some ed) :
    (payment db userId (some bi) true).2 =
      { db with
        bookings := db.bookings ++
          [committedBooking db userId bi (quoteAmount vehicle.rent_per_day sd ed)]
        vehicles := db.vehicles.map fun w =>
          if w.id = vehicle.id then { w with availability := "Unavailable" }
          else w } := by
  unfold payment
  simp only [hfv, hps, hpe, if_true]
  rfl

theorem bookingsCompatible_cancel (bid : Nat) (b1 b2 : Booking)
    (h : bookingsCompatible b1 b2 = true) :
    bookingsCompatible
      (if b1.id = bid then { b1 with status := "Cancelled" } else b1)
      (if b2.id = bid then { b2 with status := "Cancelled" } else b2) = true := by
  by_cases h1 : b1.id = bid
  · rw [if_pos h1]
    simp [bookingsCompatible]
  · rw [if_neg h1]
    by_cases h2 : b2.id = bid
    · rw [if_pos h2]
      simp [bookingsCompatible]
    · rw [if_neg h2]
      exact h

theorem noOverlap_applyCancel (db : DB) (bid vid : Nat) (h : noOverlap db) :
    noOverlap (applyCancel db bid vid) := by
  unfold noOverlap applyCancel
  simp only [List.pairwise_map]
  exact List.Pairwise.imp (fun hab => bookingsCompatible_cancel bid _ _ hab) h

theorem noOverlap_cancel_booking (db : DB) (userId bookingId : Nat)
    (h : noOverlap db) : noOverlap (cancel_booking db userId bookingId).2 := by
  unfold cancel_booking
  split
  · exact h
  next b hf =>
    split
    · exact h
    · split
      · exact h
      · exact noOverlap_applyCancel db bookingId b.vehicle_id h

theorem noOverlap_admin_cancel (db : DB) (bookingId : Nat)
    (h : noOverlap db) : noOverlap (admin_cancel_booking db bookingId).2 := by
  unfold admin_cancel_booking
  split
  · exact h
  next b hf =>
    split
    · exact h
    · exact noOverlap_applyCancel db bookingId b.vehicle_id h

theorem bookingsCompatible_new (bookings : List Booking) (vehicleId : Nat)
    (rs re : Date) (newb : Booking)
    (hconf : vehicle_conflict bookings vehicleId rs re = false)
    (hvid : newb.vehicle_id = vehicleId)
    (hps : parseDate newb.start_date = some rs)
    (hpe : parseDate newb.end_date = some re)
    (b : Booking) (hb : b ∈ bookings) :
    bookingsCompatible b newb = true := by
  unfold bookingsCompatible
  by_cases h1 : b.vehicle_id = newb.vehicle_id
  case neg => simp [h1]
  by_cases h2 : b.status = "Cancelled"
  case pos => simp [h2]
  cases hbs : parseDate b.start_date with
  | none => simp [hbs]
  | some sb =>
    cases hbe : parseDate b.end_date with
    | none => simp [hbs, hbe]
    | some eb =>
      have hfalse : (Date.le sb re && Date.le rs eb) = false := by
        rw [Bool.eq_false_iff]
        intro hov
        have hc : vehicle_conflict bookings vehicleId rs re = true :=
          (vehicle_conflict_iff bookings vehicleId rs re).mpr
            ⟨b, hb, h1.trans hvid, h2, sb, eb, hbs, hbe, hov⟩
        rw [hconf] at hc
        exact Bool.false_ne_true hc
      simp [hbs, hbe, hps, hpe, hfalse]

theorem reserve_commit_preserves (db : DB) (userId : Nat) (ss se : String)
    (vid : Nat) (form : BookForm) (info : BookingInfo)
    (hno : noOverlap db) (hfs : form.start_date = none)
    (hfe : form.end_date = none)
    (hbook : book_vehicle db (some ss) (some se) vid true form = .proceed info) :
    noOverlap (payment db userId (some info) true).2 := by
  obtain ⟨vehicle, rs, re, hfv, hempty, hps, hpe, hconf, hinfo⟩ :=
    book_vehicle_proceed_inv hbook
  have hvid : vehicle.id = vid := findVehicle_id hfv
  subst hinfo
  have hps2 : parseDate (formOr form.start_date ss) = some rs := by
    rw [hfs]; exact hps
  have hpe2 : parseDate (formOr form.end_date se) = some re := by
    rw [hfe]; exact hpe
  rw [payment_post_db db userId _ vehicle rs re hfv hps2 hpe2]
  unfold noOverlap
  simp only [List.pairwise_append, List.pairwise_singleton, List.mem_singleton]
  refine ⟨hno, trivial, ?_⟩
  intro a ha b hbmem
  subst hbmem
  refine bookingsCompatible_new db.bookings vid rs re _ ?_ rfl hps2 hpe2 a ha
  rw [← hvid]
  exact hconf

/-- C2 (amended): the invariant is not maintained across all reachable
states — the counterexample trace above breaks it — but every single
cancellation preserves it, and so does a reserve whose payment commit
immediately follows its own successful `book_vehicle` check with the same
session dates, empty form dates, and no intervening commit. -/
theorem C2_invariant_partial :
    (∀ db userId bookingId, noOverlap db →
      noOverlap (cancel_booking db userId bookingId).2) ∧
    (∀ db bookingId, noOverlap db →
      noOverlap (admin_cancel_booking db bookingId).2) ∧
    (∀ db userId ss se vid form info, noOverlap db →
      form.start_date = none → form.end_date = none →
      book_vehicle db (some ss) (some se) vid true form = .proceed info →
      noOverlap (payment db userId (some info) true).2) :=
  ⟨noOverlap_cancel_booking, noOverlap_admin_cancel, reserve_commit_preserves⟩
